import Mathlib

/-!
Verification of the two visible QuSpin source files:

* `quspin/basis/basis_1d/_constructors/setup.py` — the build helper, embedded
  as pure functions returning the list of observable effects they would
  perform (glob reads, cythonize calls, setup invocations);

* `sphinx/doc_examples/spinful_fermion_basis_general-adv-example.py` — the
  spinful-fermion example script, whose index arithmetic (numpy arange, %, //,
  hstack, roll and the list comprehensions building the coupling lists) is
  embedded over `Nat` and `ℚ`.
-/

namespace QuSpin

/-! ### Build helper: `setup.py` -/

/-- `os.path.join(dir, file)` on a POSIX system. -/
def osPathJoin (dir file : String) : String := dir ++ "/" ++ file

/-- A native extension target as recorded by
`numpy.distutils.misc_util.Configuration.add_extension`.  The Python call
passes a lone path string for `sources`; distutils normalises that to a
one-element list, which is what this field holds. -/
structure Extension where
  name : String
  sources : List String
  include_dirs : List String
  extra_compile_args : List String
  language : String
deriving DecidableEq

/-- An observable effect of running the build helper. -/
inductive Effect where
  | globRead : String → Effect
  | cythonizeCall : List String → String → Effect
  | setupCall : List Extension → Effect
deriving DecidableEq

/-- Whether an effect writes to the filesystem: globbing is read-only, while
cythonize emits transpiled sources and setup builds artifacts. -/
def Effect.isWrite : Effect → Bool
  | .globRead _ => false
  | .cythonizeCall _ _ => true
  | .setupCall _ => true

/-- Whether an effect is an invocation of the Cython transpiler. -/
def Effect.isCythonize : Effect → Bool
  | .cythonizeCall _ _ => true
  | _ => false

/-- Whether an effect is an invocation of `numpy.distutils.core.setup`. -/
def Effect.isSetupCall : Effect → Bool
  | .setupCall _ => true
  | _ => false

/-- `cython_files()` from setup.py.  `use_cython` records whether
`from Cython.Build import cythonize` succeeds (the `ImportError` is caught
inside the function, so the function itself never raises and is embedded as
a total function); `cython_src` is the result of the read-only glob of
`*.pyx` in the package directory.  When the import succeeds, `cythonize` is
called once on the whole glob result with `language="c++"`; otherwise
nothing further happens. -/
def cython_files (use_cython : Bool) (package_dir : String)
    (cython_src : List String) : List Effect :=
  Effect.globRead (osPathJoin package_dir "*.pyx") ::
    (if use_cython then [Effect.cythonizeCall cython_src "c++"] else [])

/-- `configuration(...)` from setup.py.  The block mentioning `inplace_ops`,
`spin_basis_ops`, `hcb_basis_ops` and `fermion_basis_ops` sits inside a
triple-quoted string literal — a Python expression statement with no effect —
so only the two live `add_extension` calls register targets. -/
def configuration (package_dir numpy_include : String) : List Extension :=
  let hcp_src := osPathJoin package_dir "hcp_basis_ops.cpp"
  let boson_src := osPathJoin package_dir "boson_basis_ops.cpp"
  [ ⟨"hcp_basis_ops", [hcp_src], [numpy_include], ["-fno-strict-aliasing"], "c++"⟩,
    ⟨"boson_basis_ops", [boson_src], [numpy_include], ["-fno-strict-aliasing"], "c++"⟩ ]

/-- Outcome of the `__main__` block. -/
inductive MainResult where
  | templatesBuilt
  | setupRun
  | silentExit
deriving DecidableEq

/-- The `__main__` block of setup.py.  `sys.argv[1]` raises `IndexError`
exactly when `argv` has fewer than two entries; the surrounding
`try/except IndexError: pass` catches it, so the block ends silently with
no effect.  Otherwise it dispatches on the first argument. -/
def mainBlock (argv : List String) (use_cython : Bool) (package_dir : String)
    (cython_src : List String) (numpy_include : String) :
    MainResult × List Effect :=
  match argv.get? 1 with
  | none => (MainResult.silentExit, [])
  | some instr =>
      if instr = "build_templates" then
        (MainResult.templatesBuilt, cython_files use_cython package_dir cython_src)
      else
        (MainResult.setupRun,
          [Effect.setupCall (configuration package_dir numpy_include)])

/-! ### Example script: `spinful_fermion_basis_general-adv-example.py`

The script fixes `Lx, Ly = 4, 4`; its numpy arithmetic is elementwise over
`np.arange`, so each array is embedded as a `List Nat` built by mapping the
corresponding index function over `List.range`.  The float coefficients
`J = 1.0`, `U = 2.0`, `mu = 0.5` are exactly representable and embedded in
`ℚ`. -/

def Lx : Nat := 4

def Ly : Nat := 4

/-- `N_2d = Lx*Ly`, the number of sites for one spin species. -/
def N_2d : Nat := Lx * Ly

/-- `x = np.arange(N_2d)%Lx`, pointwise. -/
def x (i : Nat) : Nat := i % Lx

/-- `y = np.arange(N_2d)//Lx`, pointwise. -/
def y (i : Nat) : Nat := i / Lx

/-- `t_x = (x+1)%Lx + Lx*y`, pointwise. -/
def t_x (i : Nat) : Nat := (x i + 1) % Lx + Lx * y i

/-- `t_y = x + Lx*((y+1)%Ly)`, pointwise. -/
def t_y (i : Nat) : Nat := x i + Lx * ((y i + 1) % Ly)

/-- The array `t_x` over `np.arange(N_2d)`. -/
def t_x_arr : List Nat := (List.range N_2d).map t_x

/-- The array `t_y` over `np.arange(N_2d)`. -/
def t_y_arr : List Nat := (List.range N_2d).map t_y

/-- `s = np.arange(2*N_2d)`. -/
def s : List Nat := List.range (2 * N_2d)

/-- `T_x = np.hstack((t_x, t_x+N_2d))`. -/
def T_x : List Nat := t_x_arr ++ t_x_arr.map (fun a => a + N_2d)

/-- `T_y = np.hstack((t_y, t_y+N_2d))`. -/
def T_y : List Nat := t_y_arr ++ t_y_arr.map (fun a => a + N_2d)

/-- `np.roll(l, k)` for a 1-d array with nonnegative shift:
`result[i] = l[(i-k) mod len(l)]`. -/
def npRoll (l : List Nat) (k : Nat) : List Nat :=
  l.drop (l.length - k % l.length) ++ l.take (l.length - k % l.length)

/-- `S = np.roll(s, N_2d)`, the fermion spin-inversion permutation. -/
def S : List Nat := npRoll s N_2d

/-- `J = 1.0`, the hopping matrix element. -/
def J : ℚ := 1

/-- `U = 2.0`, the onsite interaction. -/
def U : ℚ := 2

/-- `mu = 0.5`, the chemical potential. -/
def mu : ℚ := 1 / 2

/-- `hopping_left = [[-J,i,T_x[i]] for i in range(2*N_2d)]
                  + [[-J,i,T_y[i]] for i in range(2*N_2d)]`. -/
def hopping_left : List (ℚ × Nat × Nat) :=
  (List.range (2 * N_2d)).map (fun i => (-J, i, T_x.getD i 0)) ++
    (List.range (2 * N_2d)).map (fun i => (-J, i, T_y.getD i 0))

/-- `hopping_right = [[+J,i,T_x[i]] for i in range(2*N_2d)]
                   + [[+J,i,T_y[i]] for i in range(2*N_2d)]`. -/
def hopping_right : List (ℚ × Nat × Nat) :=
  (List.range (2 * N_2d)).map (fun i => (J, i, T_x.getD i 0)) ++
    (List.range (2 * N_2d)).map (fun i => (J, i, T_y.getD i 0))

/-- `potential = [[-mu,i] for i in range(2*N_2d)]`. -/
def potential : List (ℚ × Nat) :=
  (List.range (2 * N_2d)).map (fun i => (-mu, i))

/-- `interaction = [[U,i,i+N_2d] for i in range(N_2d)]`. -/
def interaction : List (ℚ × Nat × Nat) :=
  (List.range N_2d).map (fun i => (U, i, i + N_2d))

/-! ### Claims about the build helper -/

/-- C1: `configuration` declares exactly two named extension targets,
`hcp_basis_ops` and `boson_basis_ops`, each registered with exactly the one
matching `.cpp` source path in the package directory, the numpy include
directory and the single extra compile flag `-fno-strict-aliasing`; none of
the four targets named in the commented-out block is registered. -/
theorem C1_configuration_targets (package_dir numpy_include : String) :
    configuration package_dir numpy_include =
      [ ⟨"hcp_basis_ops", [osPathJoin package_dir "hcp_basis_ops.cpp"],
          [numpy_include], ["-fno-strict-aliasing"], "c++"⟩,
        ⟨"boson_basis_ops", [osPathJoin package_dir "boson_basis_ops.cpp"],
          [numpy_include], ["-fno-strict-aliasing"], "c++"⟩ ] ∧
    (configuration package_dir numpy_include).map Extension.name =
      ["hcp_basis_ops", "boson_basis_ops"] ∧
    (configuration package_dir numpy_include).map
      (fun e => e.sources.length) = [1, 1] ∧
    "inplace_ops" ∉ (configuration package_dir numpy_include).map Extension.name ∧
    "spin_basis_ops" ∉ (configuration package_dir numpy_include).map Extension.name ∧
    "hcb_basis_ops" ∉ (configuration package_dir numpy_include).map Extension.name ∧
    "fermion_basis_ops" ∉ (configuration package_dir numpy_include).map Extension.name := by
  refine ⟨rfl, rfl, rfl, ?_, ?_, ?_, ?_⟩ <;>
    · show ¬ _ ∈ (["hcp_basis_ops", "boson_basis_ops"] : List String)
      decide

/-- C2: invoking the main block with only the program name in `argv` makes
`sys.argv[1]` raise `IndexError`, which is caught: the run terminates
silently, with no effect performed and no diagnostic produced. -/
theorem C2_no_argument_silent_exit (prog : String) (use_cython : Bool)
    (package_dir : String) (cython_src : List String) (numpy_include : String) :
    mainBlock [prog] use_cython package_dir cython_src numpy_include =
      (MainResult.silentExit, []) := rfl

/-- C3: when the Cython import fails, `cython_files` still returns (it is a
total function of the embedding) and its only filesystem activity is the
read-only glob of `*.pyx` in the package directory: no effect in its trace
is a write. -/
theorem C3_no_cython_no_writes (package_dir : String) (cython_src : List String) :
    cython_files false package_dir cython_src =
      [Effect.globRead (osPathJoin package_dir "*.pyx")] ∧
    (cython_files false package_dir cython_src).all
      (fun e => ! e.isWrite) = true :=
  ⟨rfl, rfl⟩

/-- C4: the main block dispatches on `argv[1]`: when it equals
`"build_templates"` it performs exactly the effects of `cython_files` —
among which there is no `setup` invocation and hence no construction of the
build configuration — and for any other value it constructs the extension
configuration and runs `setup` on it. -/
theorem C4_main_dispatch (argv : List String) (instr : String)
    (use_cython : Bool) (package_dir : String) (cython_src : List String)
    (numpy_include : String) (h : argv.get? 1 = some instr) :
    (instr = "build_templates" →
      mainBlock argv use_cython package_dir cython_src numpy_include =
        (MainResult.templatesBuilt,
          cython_files use_cython package_dir cython_src) ∧
      (mainBlock argv use_cython package_dir cython_src numpy_include).2.any
        Effect.isSetupCall = false) ∧
    (instr ≠ "build_templates" →
      mainBlock argv use_cython package_dir cython_src numpy_include =
        (MainResult.setupRun,
          [Effect.setupCall (configuration package_dir numpy_include)])) := by
  have e : mainBlock argv use_cython package_dir cython_src numpy_include =
      if instr = "build_templates" then
        (MainResult.templatesBuilt,
          cython_files use_cython package_dir cython_src)
      else
        (MainResult.setupRun,
          [Effect.setupCall (configuration package_dir numpy_include)]) := by
    unfold mainBlock
    rw [h]
  constructor
  · intro hi
    subst hi
    rw [e, if_pos rfl]
    exact ⟨rfl, by cases use_cython <;> rfl⟩
  · intro hi
    rw [e, if_neg hi]

/-- Witness for C4 at the concrete invocation
`python setup.py build_templates` with Cython available. -/
theorem C4_main_dispatch_witness :
    (["setup.py", "build_templates"] : List String).get? 1 =
      some "build_templates" ∧
    (("build_templates" = "build_templates" →
      mainBlock ["setup.py", "build_templates"] true "pkg" ["pkg/ops.pyx"] "inc" =
        (MainResult.templatesBuilt, cython_files true "pkg" ["pkg/ops.pyx"]) ∧
      (mainBlock ["setup.py", "build_templates"] true "pkg" ["pkg/ops.pyx"] "inc").2.any
        Effect.isSetupCall = false) ∧
    ("build_templates" ≠ "build_templates" →
      mainBlock ["setup.py", "build_templates"] true "pkg" ["pkg/ops.pyx"] "inc" =
        (MainResult.setupRun, [Effect.setupCall (configuration "pkg" "inc")]))) :=
  ⟨rfl, C4_main_dispatch ["setup.py", "build_templates"] "build_templates"
    true "pkg" ["pkg/ops.pyx"] "inc" rfl⟩

/-- C7: when the Cython import succeeds, `cython_files` invokes the
transpiler exactly once, on the whole glob result, with language `c++`;
when the import fails, no transpiler invocation occurs at all. -/
theorem C7_cythonize_exactly_once (package_dir : String) (cython_src : List String) :
    (cython_files true package_dir cython_src).filter Effect.isCythonize =
      [Effect.cythonizeCall cython_src "c++"] ∧
    (cython_files false package_dir cython_src).filter Effect.isCythonize = [] :=
  ⟨rfl, rfl⟩

/-! ### Claims about the example script -/

/-- C5: with `Lx = Ly = 4` the arrays `T_x` and `T_y` have 32 entries each,
and every integer in `[0, 32)` occurs exactly once as an entry of `T_x` and
exactly once as an entry of `T_y`: both are permutations of `[0, 32)`. -/
theorem C5_translations_are_permutations :
    T_x.length = 32 ∧ T_y.length = 32 ∧
    ((List.range 32).all fun j =>
      (T_x.count j == 1) && (T_y.count j == 1)) = true := by
  refine ⟨rfl, rfl, ?_⟩
  decide

/-- C6: the interaction site-coupling list has exactly 16 entries, the entry
at each `i < 16` being the triple `(U, i, i + 16)` pairing spin-up site `i`
with its spin-down partner `i + 16`. -/
theorem C6_interaction_pairs_spin_partners :
    interaction.length = 16 ∧
    interaction = (List.range 16).map (fun i => (U, i, i + 16)) :=
  ⟨rfl, rfl⟩

/-- C8: the spin-inversion array `S` maps each index `i < 32` to
`(i + 16) % 32` and is an involution: `S[S[i]] = i` for every `i < 32`. -/
theorem C8_spin_inversion_involution :
    ((List.range 32).all fun i =>
      (S.getD i 0 == (i + 16) % 32) && (S.getD (S.getD i 0) 0 == i)) = true := by
  decide

/-- C9: the translations have order equal to the lattice dimensions: applying
`T_x` four times (`Lx = 4`) and `T_y` four times (`Ly = 4`) is the identity
on every index in `[0, 32)`. -/
theorem C9_translations_have_order_four :
    ((List.range 32).all fun i =>
      (T_x.getD (T_x.getD (T_x.getD (T_x.getD i 0) 0) 0) 0 == i) &&
      (T_y.getD (T_y.getD (T_y.getD (T_y.getD i 0) 0) 0) 0 == i)) = true := by
  decide

/-- C10: `hopping_left` and `hopping_right` have 64 entries each, and
position for position `hopping_right` is `hopping_left` with the coefficient
negated (`-J` replaced by `+J`) and both site indices unchanged. -/
theorem C10_hopping_lists_negated :
    hopping_left.length = 64 ∧ hopping_right.length = 64 ∧
    hopping_right = hopping_left.map (fun t => (-t.1, t.2)) := by
  refine ⟨rfl, rfl, ?_⟩
  decide

end QuSpin
